import Mathlib

/-!
# Verification of the `lighting` frame pipeline (src/index.js)

Shallow embedding of the core of `src/index.js`: the Universe frame buffer,
`Channel._set`, `Channel.update`, `parseColorToHsv`, the startup wiring of
channels to universes, `Universe.send`, and the scheduling step of the frame
loop.  JS numbers are modelled as `ℚ`; the e131 slots buffer (a Node
`Buffer`, i.e. a `Uint8Array`) is modelled as a `List ℕ` of byte values where
an indexed store out of bounds is a no-op and a stored value is coerced with
the ToUint8 conversion (truncate toward zero, then reduce mod 256), exactly
the semantics of `typedArray[i] = v`.
-/

set_option autoImplicit false

namespace Lighting

/-- JS ToUint8, step 1: truncation of a number toward zero
(`ToIntegerOrInfinity`). -/
def jsTrunc (q : ℚ) : ℤ :=
  if 0 ≤ q then ⌊q⌋ else ⌈q⌉

/-- JS ToUint8: the byte actually stored by `uint8array[i] = v`
(truncate toward zero, then reduce modulo 2^8 into `[0, 256)`). -/
def jsByte (q : ℚ) : ℕ :=
  (jsTrunc q % 256).toNat

/-- One store `buf[i] = v` into a `Uint8Array` of fixed length: out-of-bounds
indices are silently ignored (`List.set` is the identity there), the value is
coerced to a byte. -/
def bufWrite (buf : List ℕ) (i : ℕ) (v : ℚ) : List ℕ :=
  buf.set i (jsByte v)

/-- The loop body of `Channel._set` (src/index.js lines 102-106):

```js
for (let i = this._config.channel; i < data.length; ++i) {
  this._universe.data[i] = data[i];
}
```

`setLoop d buf i` runs the iterations from the current loop counter `i` up to
`data.length` (exclusive).  Note that the loop reads `data[i]` and writes
`data[i]` to `this._universe.data[i]` — the *same* index `i` on both sides,
and the bound is `data.length`, not the universe's channel count. -/
def setLoop (d : List ℚ) (buf : List ℕ) (i : ℕ) : List ℕ :=
  if h : i < d.length then
    setLoop d (bufWrite buf i (d.get ⟨i, h⟩)) (i + 1)
  else
    buf
termination_by d.length - i

/-- `Channel._set(data)` (src/index.js lines 102-106): the whole loop, started
at the channel's configured offset `this._config.channel`. -/
def Channel.set (offset : ℕ) (d : List ℚ) (buf : List ℕ) : List ℕ :=
  setLoop d buf offset

/-- JS `str.startsWith(p)` as a character-list prefix test.  (Lean's own
`String.startsWith` agrees with this on our inputs but does not reduce in the
kernel, so concrete instances could not be checked by `decide`.) -/
def strStartsWith (s p : String) : Bool :=
  p.data.isPrefixOf s.data

/-- The pieces of the external `color-convert` library that `src/index.js`
calls.  Each conversion either yields a value (a truthy JS array) or yields
no result (`undefined`/`null`, the only falsy values these calls can
produce); `hsvRgb` is total on defined inputs (`color.hsv.rgb`).  The library
is an external collaborator, so it is kept abstract as a parameter. -/
structure ColorLib where
  keywordHsv : String → Option (List ℚ)
  rgbHsv : String → Option (List ℚ)
  hsvHsv : String → Option (List ℚ)
  hexHsv : String → Option (List ℚ)
  hsvRgb : List ℚ → List ℚ

/-- Outcome of calling the JS function `parseColorToHsv` (src/index.js lines
73-94): it can return an HSV array, fall off the end of the function body and
return `undefined`, or throw an `Error`. -/
inductive ParseResult where
  | ok (hsv : List ℚ)
  | undef
  | err (msg : String)
deriving DecidableEq

/-- `parseColorToHsv(str)` (src/index.js lines 73-94), literally:

```js
let c = color.keyword.hsv(str);
if (c) return c;
if (str.startsWith('rgb')) { c = color.rgb.hsv(str);
  if (!c) throw new Error('Unknown color: ' + str); return c; }
if (str.startsWith('hsv')) { c = color.hsv.hsv(str);
  if (!c) throw new Error('Unknown color: ' + str); return c; }
if (str.startsWith('0x')) { c = color.hex.hsv(str);
  if (!c) throw new Error('Unkown color: ' + str); return c; }
```

Note there is no final `else`: a string that is not a keyword and carries
none of the three prefixes makes the function return `undefined`.  The
misspelling `Unkown` in the hex branch is the source's own (line 91). -/
def parseColorToHsv (lib : ColorLib) (str : String) : ParseResult :=
  match lib.keywordHsv str with
  | some c => ParseResult.ok c
  | none =>
    if strStartsWith str "rgb" then
      match lib.rgbHsv str with
      | some c => ParseResult.ok c
      | none => ParseResult.err ("Unknown color: " ++ str)
    else if strStartsWith str "hsv" then
      match lib.hsvHsv str with
      | some c => ParseResult.ok c
      | none => ParseResult.err ("Unknown color: " ++ str)
    else if strStartsWith str "0x" then
      match lib.hexHsv str with
      | some c => ParseResult.ok c
      | none => ParseResult.err ("Unkown color: " ++ str)
    else ParseResult.undef

/-- The effect block of a channel's configuration (`c.candle` in the source):
`level = [base, amplitude]`. -/
structure CandleConfig where
  level : List ℚ
deriving DecidableEq

/-- Modelled from the spec: the Flicker Simulator (`require('./vendor/candle')`)
is not under `src/`; per spec §4.2 it holds a continuous internal flame
intensity in `[0, 255]`, advanced one step per `update()` by a bounded
stochastic process.  Only the current intensity `flame` is observed by
`src/index.js` (line 120), so the state is modelled as that intensity and the
step function and constructor are kept abstract (parameters `step` and
`newCandle` below). -/
structure CandleState where
  flame : ℚ
deriving DecidableEq

/-- A channel's static configuration (`c` = `this._config` in the source).
`universeName` is the JS property `c.universe` (`universe` is a Lean
keyword); `channel` is the buffer offset, `type` the output encoding, `hue`
the color specification, `effect` the optional effect name and `candle` the
effect block. -/
structure ChannelConfig where
  universeName : String
  channel : ℕ
  type : String
  hue : String
  effect : Option String
  candle : CandleConfig
deriving DecidableEq

/-- A JS exception escaping `Channel.update`: `thrown` is an `Error` thrown
on purpose (`throw new Error(...)`), `typeError` a `TypeError` raised by
using `undefined` (indexing it or reading `.length` of it). -/
inductive JsError where
  | thrown (msg : String)
  | typeError (msg : String)
deriving DecidableEq

/-- `Channel.update()` (src/index.js lines 108-132).  The mutable per-channel
simulator (`c._candle`, stored on the config object) is threaded explicitly
as `cst : Option CandleState`; the universe buffer as `buf`.

The `ParseResult.ok` branch follows lines 111-131: the candle block (lines
112-123) lazily creates the simulator, advances it one step, reads
`c._candle.flame / 255` and overwrites `hsv[2]`; then the encoding dispatch
writes via `_set` (`hsv` directly, `rgb` after `color.hsv.rgb`), and an
unknown encoding only logs `'Unhandled color type'` and writes nothing.

The `ParseResult.undef` branch tracks what the same lines do when
`parseColorToHsv` returned `undefined`: with a candle effect, `hsv[2] = ...`
throws a `TypeError` (after the simulator was created and advanced — the
state mutation is lost with the exception here, which no claim observes);
with encoding `hsv`, `_set(undefined)` throws reading `data.length`; with
encoding `rgb`, `color.hsv.rgb(undefined)` returns `undefined` (the
library's wrapper passes `undefined` through) and `_set(undefined)` throws
the same way; with an unknown encoding nothing throws and nothing is
written. -/
def Channel.update (lib : ColorLib) (step : CandleState → CandleState)
    (newCandle : CandleConfig → CandleState) (c : ChannelConfig)
    (cst : Option CandleState) (buf : List ℕ) :
    Except JsError (Option CandleState × List ℕ) :=
  match parseColorToHsv lib c.hue with
  | ParseResult.err m => Except.error (JsError.thrown m)
  | ParseResult.ok hsv0 =>
    let res :=
      if c.effect = some "candle" then
        let st := match cst with
          | none => newCandle c.candle
          | some s => s
        let st' := step st
        let flame := st'.flame / 255
        (some st',
          hsv0.set 2 (flame * c.candle.level.getD 1 0 + c.candle.level.getD 0 0))
      else (cst, hsv0)
    if c.type = "hsv" then
      Except.ok (res.1, Channel.set c.channel res.2 buf)
    else if c.type = "rgb" then
      Except.ok (res.1, Channel.set c.channel (lib.hsvRgb res.2) buf)
    else
      Except.ok (res.1, buf)
  | ParseResult.undef =>
    if c.effect = some "candle" then
      Except.error (JsError.typeError "Cannot set properties of undefined")
    else if c.type = "hsv" then
      Except.error (JsError.typeError "Cannot read properties of undefined")
    else if c.type = "rgb" then
      Except.error (JsError.typeError "Cannot read properties of undefined")
    else
      Except.ok (cst, buf)

/-- The update phase of one tick: `channels.map(c => c.update())` (line 171).
`Channel.update` is synchronous, so `Array.prototype.map` calls it once per
channel in configuration order, and an exception thrown by one call
propagates out of `map` at once — the remaining channels are not visited.
Universe buffers are merged into one state here only in as much as the
claims need: every channel in `cs` writes into the same buffer `buf` (the
claims about this phase use channels of a single universe). -/
def runUpdates (lib : ColorLib) (step : CandleState → CandleState)
    (newCandle : CandleConfig → CandleState) :
    List (ChannelConfig × Option CandleState) → List ℕ →
    Except JsError (List (Option CandleState) × List ℕ)
  | [], buf => Except.ok ([], buf)
  | (c, cst) :: rest, buf =>
    match Channel.update lib step newCandle c cst buf with
    | Except.error e => Except.error e
    | Except.ok (cst2, buf2) =>
      match runUpdates lib step newCandle rest buf2 with
      | Except.error e => Except.error e
      | Except.ok (sts, buf3) => Except.ok (cst2 :: sts, buf3)

/-- `RATE = 30`, `NOMINAL_DELAY = (1/RATE) * 1000` (lines 135, 162), as an
exact rational (the JS float is the nearest double to `100/3`; nothing below
depends on the rounding). -/
def NOMINAL_DELAY : ℚ := (1 / 30) * 1000

/-- What happens after the awaits of one tick (src/index.js lines 174-181):

```js
const target = start + (NOMINAL_DELAY * frame);
const now = Date.now();
const wait = target - now;
if (wait <= 0) {
  logger.error('frame wait is less than 0');
  wait = 0;
}
setTimeout(loop, wait);
```

`wait` is a `const` binding and the file is under `'use strict'` (line 1),
so when the branch is taken the overrun is logged (the `logger.error` call
completes) and then the assignment `wait = 0` throws
`TypeError: Assignment to constant variable.`; `setTimeout` on line 181 is
never reached and no further tick is scheduled — `loop`'s promise rejects
unhandled. -/
inductive ScheduleOutcome where
  | timer (wait : ℚ)
  | overrunLoggedThenTypeError
deriving DecidableEq

/-- The scheduling step itself: `target`, `now` and `wait` as on lines
174-176, then either `setTimeout(loop, wait)` or the strict-mode `TypeError`
described at `ScheduleOutcome`. -/
def scheduleNext (start : ℚ) (frame : ℕ) (now : ℚ) : ScheduleOutcome :=
  let target := start + NOMINAL_DELAY * frame
  let wait := target - now
  if wait ≤ 0 then ScheduleOutcome.overrunLoggedThenTypeError
  else ScheduleOutcome.timer wait

/-- Result of one `Universe.send()` call: whether `this.client.send` was
invoked at all, and the settled state of the returned promise (`Except.ok`
for resolve, `Except.error msg` for reject). -/
structure SendEffect where
  transmitted : Bool
  result : Except String Unit

set_option linter.unusedVariables false in
/-- `Universe.send()` (src/index.js lines 59-70) as written: line 62 is
`return Promise.resolve();` (preceded by the comment `// for testing`), so
the function always resolves successfully without calling
`this.client.send` — the transport's outcome `transport` is never consulted
and nothing is transmitted.  The `new Promise` at lines 64-69 is dead code
after the `return`. -/
def Universe.send (transport : Except String Unit) : SendEffect :=
  { transmitted := false, result := Except.ok () }

/-- The dead code of `Universe.send` (src/index.js lines 64-69): what the
function would do had line 62 not returned early — call
`this.client.send(this.packet, cb)` and reject with the transport's error or
resolve on success. -/
def Universe.sendUnreachable (transport : Except String Unit) : SendEffect :=
  { transmitted := true,
    result := match transport with
      | Except.error e => Except.error e
      | Except.ok _ => Except.ok () }

/-- A universe's configuration entry (`u` in the source): logical name,
destination address (`u.ip`) and declared channel count. -/
structure UniverseConfig where
  name : String
  ip : String
  channels : ℕ
deriving DecidableEq

/-- `universes.find(u => u._config.name === c.universe)` (line 144). -/
def findUniverse (us : List UniverseConfig) (nm : String) : Option UniverseConfig :=
  us.find? (fun u => u.name == nm)

/-- The channel wiring at startup (src/index.js lines 143-149):

```js
const channels = config.get('channels').map(c => {
  const u = universes.find(u => u._config.name === c.universe);
  if (!u) { throw new Error('No matching universe'); }
  return new Channel(c, u);
});
```

`map` visits the channel configs in order and the first unresolved universe
name throws, aborting the whole `map`; `new Channel(c, u)` (modelled as the
pair `(c, u)`) has no side effect, so the throw is the only observable
difference from completing the map. -/
def wireChannels (us : List UniverseConfig) :
    List ChannelConfig → Except String (List (ChannelConfig × UniverseConfig))
  | [] => Except.ok []
  | c :: rest =>
    match findUniverse us c.universeName with
    | none => Except.error "No matching universe"
    | some u =>
      match wireChannels us rest with
      | Except.error e => Except.error e
      | Except.ok ws => Except.ok ((c, u) :: ws)

/-- One step of the tick loop as an observable event: `Event.update i` is
`channels[i].update()` starting, `Event.send j` is `universes[j].send()`
starting. -/
inductive Event where
  | update (channelIdx : ℕ)
  | send (universeIdx : ℕ)
deriving DecidableEq

/-- The event sequence of one tick body (src/index.js lines 171-172):
`await Promise.all(channels.map(c => c.update()))` runs every (synchronous)
update during the `map`, in channel order, and the `await` completes before
line 172 runs, so every update precedes every send of the same tick;
`universes.map(u => u.send())` then starts the sends in universe order. -/
def tickEvents (nCh nU : ℕ) : List Event :=
  (List.range nCh).map Event.update ++ (List.range nU).map Event.send

/-- The event sequence of the first `ticks` iterations of `loop`
(src/index.js lines 166-183), each event tagged with its frame number
(`++frame` on line 169 makes the first tick frame 1).  `setTimeout(loop,
wait)` on line 181 is only reached after both `await`s of the current tick
resolved, so the events of tick `t+1` all come after every event of tick
`t`: the concatenation below is the faithful single-threaded order. -/
def loopEvents (nCh nU : ℕ) (ticks : ℕ) : List (ℕ × Event) :=
  (List.range ticks).flatMap (fun t => (tickEvents nCh nU).map (fun e => (t + 1, e)))

/-- Startup followed by the loop (src/index.js lines 138-184): if the wiring
of lines 143-149 throws, the async IIFE rejects before line 161 and the loop
never runs (no event is ever produced); otherwise the loop produces its event
stream. -/
def programRun (us : List UniverseConfig) (cs : List ChannelConfig)
    (ticks : ℕ) : List (ℕ × Event) :=
  match wireChannels us cs with
  | Except.error _ => []
  | Except.ok _ => loopEvents cs.length us.length ticks

/-- Observer: did `parseColorToHsv` throw (`ParseResult.err`)? -/
def ParseResult.isErr : ParseResult → Bool
  | ParseResult.err _ => true
  | _ => false

/-- `preservesBuffer r buf`: whenever the update outcome `r` is a normal
return, the buffer it carries is `buf` unchanged — i.e. the update wrote no
buffer position. -/
def preservesBuffer (r : Except JsError (Option CandleState × List ℕ))
    (buf : List ℕ) : Prop :=
  ∀ st2 buf2, r = Except.ok (st2, buf2) → buf2 = buf

/-- A concrete instance of the external `color-convert` fragment for the
closed examples below: the keyword table resolves `"red"` to HSV
`[0, 100, 100]` (exactly what `color.keyword.hsv('red')` returns) and
nothing else; the prefix conversions yield no result anywhere and `hsvRgb`
is the identity (no example below exercises either). -/
def demoLib : ColorLib :=
  { keywordHsv := fun s => if s = "red" then some [0, 100, 100] else none,
    rgbHsv := fun _ => none,
    hsvHsv := fun _ => none,
    hexHsv := fun _ => none,
    hsvRgb := fun v => v }

/-- A concrete stand-in for the abstract Flicker Simulator step used by the
closed examples: a deterministic instance of the spec's bounded process. -/
def demoStep : CandleState → CandleState :=
  fun s => { flame := s.flame + 1 }

/-- A concrete stand-in for the abstract simulator constructor
(`new Candle(f)`): initial flame intensity 0. -/
def demoNew : CandleConfig → CandleState :=
  fun _ => { flame := 0 }

/-- A universe configuration used by the closed examples. -/
def uStage : UniverseConfig :=
  { name := "stage", ip := "192.168.1.30", channels := 3 }

/-- A well-formed channel: resolves to `uStage`, keyword color, no effect. -/
def cGood : ChannelConfig :=
  { universeName := "stage", channel := 0, type := "hsv", hue := "red",
    effect := none, candle := { level := [] } }

/-- A channel whose hue string is neither a keyword nor carries any of the
recognised prefixes. -/
def cBad : ChannelConfig :=
  { universeName := "stage", channel := 0, type := "hsv",
    hue := "not-a-color", effect := none, candle := { level := [] } }

/-- A channel with the candle effect, `level = [base, amplitude] = [50, 255]`. -/
def cCandle : ChannelConfig :=
  { universeName := "stage", channel := 0, type := "hsv", hue := "red",
    effect := some "candle", candle := { level := [50, 255] } }

/-- A channel naming a universe that is not configured. -/
def cMissing : ChannelConfig :=
  { universeName := "nowhere", channel := 0, type := "hsv", hue := "red",
    effect := none, candle := { level := [] } }

/-- A list of byte values seen as JS numbers (the shape of the 3-component
color values that reach `_set`). -/
def bytesToJs (db : List ℕ) : List ℚ :=
  db.map (fun n : ℕ => (n : ℚ))

theorem setLoop_of_le (d : List ℚ) (buf : List ℕ) (i : ℕ)
    (h : d.length ≤ i) : setLoop d buf i = buf := by
  unfold setLoop
  simp [Nat.not_lt.mpr h]

theorem setLoop_length (d : List ℚ) (buf : List ℕ) (i : ℕ) :
    (setLoop d buf i).length = buf.length := by
  induction buf, i using setLoop.induct d with
  | case1 buf i h ih =>
    rw [setLoop, dif_pos h, ih, bufWrite, List.length_set]
  | case2 buf i h =>
    rw [setLoop, dif_neg h]

/-- Element-level characterisation of the `_set` loop: running it from loop
counter `i` stores the byte of `d[j]` at every position `j` with
`i ≤ j < min d.length buf.length` and leaves every other position alone. -/
theorem setLoop_getElem? (d : List ℚ) (buf : List ℕ) (i j : ℕ) :
    (setLoop d buf i)[j]? =
      if i ≤ j ∧ j < d.length ∧ j < buf.length
      then some (jsByte (d.getD j 0)) else buf[j]? := by
  induction buf, i using setLoop.induct d with
  | case1 buf i h ih =>
    rw [setLoop, dif_pos h, ih]
    simp only [bufWrite, List.length_set, List.getElem?_set]
    rcases eq_or_ne i j with hij | hij
    · subst hij
      have h1 : ¬(i + 1 ≤ i ∧ i < d.length ∧ i < buf.length) := by omega
      rw [if_neg h1, if_pos rfl]
      by_cases hb : i < buf.length
      · rw [if_pos hb, if_pos ⟨le_refl i, h, hb⟩]
        have hd : d.getD i 0 = d.get ⟨i, h⟩ := by
          rw [List.getD_eq_getElem?_getD, List.getElem?_eq_getElem h]
          rfl
        rw [hd]
      · have h2 : ¬(i ≤ i ∧ i < d.length ∧ i < buf.length) := by
          intro hx
          exact hb hx.2.2
        rw [if_neg hb, if_neg h2]
        exact (List.getElem?_eq_none (Nat.le_of_not_lt hb)).symm
    · rw [if_neg hij]
      have h3 : (i + 1 ≤ j ∧ j < d.length ∧ j < buf.length) ↔
          (i ≤ j ∧ j < d.length ∧ j < buf.length) := by omega
      simp only [h3]
  | case2 buf i h =>
    rw [setLoop, dif_neg h]
    have h4 : ¬(i ≤ j ∧ j < d.length ∧ j < buf.length) := by omega
    rw [if_neg h4]

/-- `Channel._set` preserves the buffer's length (it can never grow or
shrink the universe's slot array). -/
theorem Channel.set_length (offset : ℕ) (d : List ℚ) (buf : List ℕ) :
    (Channel.set offset d buf).length = buf.length :=
  setLoop_length d buf offset

/-- Element-level characterisation of `Channel._set(data)`: position `j` of
the buffer receives the byte of `data[j]` exactly when
`offset ≤ j < data.length` (and `j` is in bounds); every other position is
untouched.  The channel's offset only cuts the *start* of the written range;
it never shifts the data. -/
theorem Channel.set_getD (offset : ℕ) (d : List ℚ) (buf : List ℕ) (j : ℕ) :
    (Channel.set offset d buf).getD j 0 =
      if offset ≤ j ∧ j < d.length ∧ j < buf.length
      then jsByte (d.getD j 0) else buf.getD j 0 := by
  have h := setLoop_getElem? d buf offset j
  rw [Channel.set, List.getD_eq_getElem?_getD, h]
  split
  · rfl
  · rw [← List.getD_eq_getElem?_getD]

/-- Storing a byte-sized natural (as a JS number) stores it unchanged. -/
theorem jsByte_natCast (n : ℕ) (h : n < 256) : jsByte (n : ℚ) = n := by
  rw [jsByte, jsTrunc, if_pos (by positivity), Int.floor_natCast]
  omega

/-- C1: the claim states that `Channel.update()` writes the 3 color
components at buffer positions `o`, `o+1`, `o+2` (`buffer[o+i] = color[i]`).
The code's `_set` loop instead runs `i` from `o` to `data.length` writing
`buffer[i] = data[i]`: at offset 1 with color `[10, 20, 30]` and a 4-slot
universe it leaves `[0, 20, 30, 0]`, not the claimed `[0, 10, 20, 30]` —
the first component is dropped and nothing lands at position `o+2 = 3`.
This evaluates the code at the failing input of the `code_bug` verdict. -/
theorem claim_C1_code_behavior :
    Channel.set 1 [10, 20, 30] [0, 0, 0, 0] = [0, 20, 30, 0] := by
  simp [Channel.set, setLoop, bufWrite, jsByte, jsTrunc]

/-- C2: the claim states that a tick whose computed wait is ≤ 0 schedules
the next tick immediately with wait 0 and the loop continues.  Evaluating
the scheduling step of the code at an overrunning tick (start 0, frame 1,
now 34 ms, so `wait = 100/3 − 34 < 0`): the overrun is logged, but then the
strict-mode reassignment of the `const wait` throws a `TypeError`, so
`setTimeout` is never called and no further tick ever runs — this evaluates
the code at the failing input of the `code_bug` verdict. -/
theorem claim_C2_code_behavior :
    scheduleNext 0 1 34 = ScheduleOutcome.overrunLoggedThenTypeError := by
  rw [scheduleNext]
  norm_num [NOMINAL_DELAY]

/-- C4: the claim states that `Universe.send()` serializes and transmits the
buffer and reports transport failures as a `TransportError`.  The code
returns `Promise.resolve()` on line 62 before the transmission code (lines
64-69, dead after the `return`), so even when the transport would report a
failure nothing is transmitted and the result is success; the dead code
would have surfaced exactly that failure.  This evaluates the code at the
failing input of the `code_bug` verdict. -/
theorem claim_C4_code_behavior :
    (Universe.send (Except.error "ENETUNREACH")).transmitted = false ∧
    (Universe.send (Except.error "ENETUNREACH")).result = Except.ok () ∧
    (Universe.sendUnreachable (Except.error "ENETUNREACH")).result =
      Except.error "ENETUNREACH" :=
  ⟨rfl, rfl, rfl⟩

/-- C6: a Channel whose configured offset is ≥ 3 writes nothing at all: the
`_set` loop is bounded by the 3-element color value's length, so it performs
zero iterations and the universe buffer is returned unchanged. -/
theorem claim_C6_offset_ge_three_writes_nothing (offset : ℕ) (d : List ℚ)
    (buf : List ℕ) (hd : d.length = 3) (ho : 3 ≤ offset) :
    Channel.set offset d buf = buf := by
  apply setLoop_of_le
  omega

/-- Witness for C6 at offset 5, color `[1, 2, 3]`, an 8-slot buffer. -/
theorem claim_C6_witness :
    ([1, 2, 3] : List ℚ).length = 3 ∧ 3 ≤ 5 ∧
    Channel.set 5 [1, 2, 3] [7, 7, 7, 7, 7, 7, 7, 7] =
      [7, 7, 7, 7, 7, 7, 7, 7] :=
  ⟨rfl, by omega,
    claim_C6_offset_ge_three_writes_nothing 5 [1, 2, 3]
      [7, 7, 7, 7, 7, 7, 7, 7] rfl (by omega)⟩

/-- C10: exact extent of a `Channel._set` write with a 3-component color
value `d` (byte-valued components): position `j` of the buffer becomes
`d[j]` exactly when `offset ≤ j < 3`, every other in-bounds position keeps
its old value (so no index ≥ 3 is ever written whatever the universe's
channel count, positions below the offset stay untouched, and the
components `d[0..offset)` are dropped), and the buffer's length never
changes. -/
theorem claim_C10_set_characterisation (offset : ℕ) (db buf : List ℕ)
    (hlen : db.length = 3) (hbytes : ∀ n ∈ db, n < 256) :
    (Channel.set offset (bytesToJs db) buf).length = buf.length ∧
    ∀ j, j < buf.length →
      (Channel.set offset (bytesToJs db) buf).getD j 0 =
        if offset ≤ j ∧ j < 3 then db.getD j 0 else buf.getD j 0 := by
  refine ⟨Channel.set_length _ _ _, fun j hj => ?_⟩
  rw [Channel.set_getD]
  have hmaplen : (bytesToJs db).length = 3 := by
    simp [bytesToJs, hlen]
  by_cases hc : offset ≤ j ∧ j < 3
  · rw [if_pos ⟨hc.1, by omega, hj⟩, if_pos hc]
    have hjdb : j < db.length := by omega
    have h1 : (bytesToJs db).getD j 0 = ((db.getD j 0 : ℕ) : ℚ) := by
      rw [bytesToJs, List.getD_eq_getElem?_getD, List.getD_eq_getElem?_getD,
        List.getElem?_map, List.getElem?_eq_getElem hjdb]
      rfl
    have h2 : db.getD j 0 = db[j] := by
      rw [List.getD_eq_getElem?_getD, List.getElem?_eq_getElem hjdb]
      rfl
    rw [h1, jsByte_natCast]
    rw [h2]
    exact hbytes _ (List.getElem_mem hjdb)
  · have hc2 : ¬(offset ≤ j ∧ j < (bytesToJs db).length ∧
        j < buf.length) := by
      rw [hmaplen]
      omega
    rw [if_neg hc2, if_neg hc]

/-- Witness for C10 at offset 1, components `[10, 20, 30]`, 4-slot buffer:
position 2 receives component 2 and the length stays 4. -/
theorem claim_C10_witness :
    ([10, 20, 30] : List ℕ).length = 3 ∧
    (Channel.set 1 (bytesToJs [10, 20, 30]) [0, 0, 0, 0]).length = 4 ∧
    (Channel.set 1 (bytesToJs [10, 20, 30]) [0, 0, 0, 0]).getD 2 0 = 30 := by
  have h := claim_C10_set_characterisation 1 [10, 20, 30] [0, 0, 0, 0] rfl
    (by decide)
  refine ⟨rfl, h.1, ?_⟩
  have h2 := h.2 2 (by decide)
  rw [if_pos (by decide)] at h2
  exact h2

/-- C3 counterexample: `"not-a-color"` is not a keyword and carries none of
the recognised prefixes, and `parseColorToHsv` returns `undefined`
(`ParseResult.undef`) for it — it does not fail with a `ColorParseError`
(no `Error` is thrown at all), contrary to the claim. -/
theorem claim_C3_counterexample :
    parseColorToHsv demoLib "not-a-color" = ParseResult.undef ∧
    (parseColorToHsv demoLib "not-a-color").isErr = false :=
  ⟨rfl, rfl⟩

/-- C3 (amended): for a color string that is not a recognised keyword and
carries none of the prefixes `rgb`/`hsv`/`0x`, `parseColorToHsv` returns
`undefined` rather than throwing; the enclosing `Channel.update` then fails
with a `TypeError` before reaching any buffer store (shown here for the
`hsv` encoding; `rgb` and candle channels fail alike), and in every case —
error or logged-and-skipped unknown encoding — no buffer position is
written. -/
theorem claim_C3_amended (lib : ColorLib) (step : CandleState → CandleState)
    (newCandle : CandleConfig → CandleState) (c : ChannelConfig)
    (cst : Option CandleState) (buf : List ℕ)
    (hkw : lib.keywordHsv c.hue = none)
    (h1 : strStartsWith c.hue "rgb" = false)
    (h2 : strStartsWith c.hue "hsv" = false)
    (h3 : strStartsWith c.hue "0x" = false) :
    parseColorToHsv lib c.hue = ParseResult.undef ∧
    preservesBuffer (Channel.update lib step newCandle c cst buf) buf ∧
    (c.effect ≠ some "candle" → c.type = "hsv" →
      Channel.update lib step newCandle c cst buf =
        Except.error (JsError.typeError "Cannot read properties of undefined")) := by
  have hp : parseColorToHsv lib c.hue = ParseResult.undef := by
    rw [parseColorToHsv, hkw]
    simp [h1, h2, h3]
  refine ⟨hp, ?_, ?_⟩
  · intro st2 buf2 hok
    simp only [Channel.update, hp] at hok
    split_ifs at hok
    simp_all
  · intro hcand htype
    simp only [Channel.update, hp, htype]
    simp [hcand]

/-- Witness for C3 (amended) at the channel `cBad` (hue `"not-a-color"`,
encoding `hsv`) against the concrete library instance. -/
theorem claim_C3_witness :
    demoLib.keywordHsv "not-a-color" = none ∧
    strStartsWith "not-a-color" "rgb" = false ∧
    strStartsWith "not-a-color" "hsv" = false ∧
    strStartsWith "not-a-color" "0x" = false ∧
    parseColorToHsv demoLib cBad.hue = ParseResult.undef ∧
    preservesBuffer (Channel.update demoLib demoStep demoNew cBad none [0, 0, 0])
      [0, 0, 0] := by
  have h := claim_C3_amended demoLib demoStep demoNew cBad none [0, 0, 0]
    rfl (by decide) (by decide) (by decide)
  exact ⟨rfl, by decide, by decide, by decide, h.1, h.2.1⟩

/-- C5 counterexample: with the erroring channel `cBad` first in the
configuration, the tick's update phase (`channels.map(c => c.update())`)
propagates the exception and yields no updated state at all — the second
channel `cGood`, which alone would have written `[0, 100, 100]`, never
executes.  An error in one Channel's update therefore does prevent the
updates of the other Channels in that tick, contrary to the claim. -/
theorem claim_C5_counterexample :
    runUpdates demoLib demoStep demoNew [(cBad, none), (cGood, none)] [0, 0, 0] =
      Except.error (JsError.typeError "Cannot read properties of undefined") ∧
    runUpdates demoLib demoStep demoNew [(cGood, none)] [0, 0, 0] =
      Except.ok ([none], [0, 100, 100]) := by
  constructor
  · rfl
  · simp [runUpdates, Channel.update, parseColorToHsv, demoLib, strStartsWith,
      cGood, Channel.set, setLoop, bufWrite, jsByte, jsTrunc]

/-- C5 (amended): an error raised during one Channel's update propagates
synchronously out of `channels.map(...)`: the updates of every Channel after
it in the configured order do not execute for that tick, and the update
phase produces no result (the tick aborts). -/
theorem claim_C5_amended (lib : ColorLib) (step : CandleState → CandleState)
    (newCandle : CandleConfig → CandleState) (c : ChannelConfig)
    (cst : Option CandleState)
    (rest : List (ChannelConfig × Option CandleState))
    (buf : List ℕ) (e : JsError)
    (h : Channel.update lib step newCandle c cst buf = Except.error e) :
    runUpdates lib step newCandle ((c, cst) :: rest) buf = Except.error e := by
  simp [runUpdates, h]

/-- Witness for C5 (amended): `cBad`'s update throws a `TypeError`, and the
whole update phase `[cBad, cGood]` errors with it. -/
theorem claim_C5_witness :
    Channel.update demoLib demoStep demoNew cBad none [0, 0, 0] =
      Except.error (JsError.typeError "Cannot read properties of undefined") ∧
    runUpdates demoLib demoStep demoNew [(cBad, none), (cGood, none)] [0, 0, 0] =
      Except.error (JsError.typeError "Cannot read properties of undefined") :=
  ⟨rfl, claim_C5_amended demoLib demoStep demoNew cBad none [(cGood, none)]
    [0, 0, 0] _ rfl⟩

set_option maxRecDepth 4000 in
/-- C8: for a channel with the candle effect and `level = [base, amplitude]`,
one `Channel.update()` resolves the simulator state as: the retained state
if one exists, a newly constructed one only on the first update
(`cst.getD (newCandle c.candle)`), advances it exactly one step (`step`
applied once), and overwrites the HSV brightness component (index 2) with
`base + (flame/255) × amplitude`, `flame` being the advanced simulator's
intensity; the result is then written through `_set` (shown for the `hsv`
encoding the effect channels use). -/
theorem claim_C8_candle (lib : ColorLib) (step : CandleState → CandleState)
    (newCandle : CandleConfig → CandleState) (c : ChannelConfig)
    (cst : Option CandleState) (buf : List ℕ) (hsv0 : List ℚ) (base amp : ℚ)
    (hparse : parseColorToHsv lib c.hue = ParseResult.ok hsv0)
    (heff : c.effect = some "candle")
    (hlevel : c.candle.level = [base, amp])
    (htype : c.type = "hsv") :
    Channel.update lib step newCandle c cst buf =
      Except.ok (some (step (cst.getD (newCandle c.candle))),
        Channel.set c.channel
          (hsv0.set 2
            (base + (step (cst.getD (newCandle c.candle))).flame / 255 * amp))
          buf) := by
  simp only [Channel.update, hparse, heff, hlevel, htype]
  cases cst with
  | none =>
    simp only [Option.getD]
    norm_num
    ring_nf
  | some s =>
    simp only [Option.getD]
    norm_num
    ring_nf

/-- Witness for C8: channel `cCandle` (`level = [50, 255]`), first update
(no retained simulator): the simulator is constructed (`flame` 0), advanced
one step (`demoStep`, `flame` 1), and brightness becomes
`50 + (1/255) × 255 = 51`; the buffer receives `[0, 100, 51]`. -/
theorem claim_C8_witness :
    parseColorToHsv demoLib cCandle.hue = ParseResult.ok [0, 100, 100] ∧
    cCandle.effect = some "candle" ∧
    cCandle.candle.level = [50, 255] ∧
    Channel.update demoLib demoStep demoNew cCandle none [0, 0, 0] =
      Except.ok (some { flame := 1 }, [0, 100, 51]) := by
  refine ⟨rfl, rfl, rfl, ?_⟩
  have h := claim_C8_candle demoLib demoStep demoNew cCandle none [0, 0, 0]
    [0, 100, 100] 50 255 rfl rfl rfl rfl
  rw [h]
  have hst : demoStep ((none : Option CandleState).getD (demoNew cCandle.candle)) =
      { flame := 1 } := by
    simp [demoStep, demoNew]
  rw [hst]
  have hv : (50 : ℚ) + CandleState.flame { flame := 1 } / 255 * 255 = 51 := by
    norm_num
  rw [hv]
  have hs : (([0, 100, 100] : List ℚ).set 2 51) = [0, 100, 51] := rfl
  rw [hs]
  have hc : cCandle.channel = 0 := rfl
  rw [hc]
  have hset : Channel.set 0 [0, 100, 51] [0, 0, 0] = [0, 100, 51] := by
    simp [Channel.set, setLoop, bufWrite, jsByte, jsTrunc]
  rw [hset]

/-- If some configured channel's universe name does not resolve, the startup
`map` throws `'No matching universe'`. -/
theorem wireChannels_error_of (us : List UniverseConfig)
    (cs : List ChannelConfig)
    (h : ∃ c ∈ cs, findUniverse us c.universeName = none) :
    wireChannels us cs = Except.error "No matching universe" := by
  induction cs with
  | nil =>
    rcases h with ⟨c, hc, _⟩
    cases hc
  | cons c rest ih =>
    rcases h with ⟨c2, hc2, hnone⟩
    rcases List.mem_cons.mp hc2 with rfl | hmem
    · simp [wireChannels, hnone]
    · cases hfind : findUniverse us c.universeName with
      | none => simp [wireChannels, hfind]
      | some u => simp [wireChannels, hfind, ih ⟨c2, hmem, hnone⟩]

/-- If every configured channel's universe name resolves, the startup `map`
completes. -/
theorem wireChannels_ok_of (us : List UniverseConfig)
    (cs : List ChannelConfig)
    (h : ∀ c ∈ cs, findUniverse us c.universeName ≠ none) :
    ∃ ws, wireChannels us cs = Except.ok ws := by
  induction cs with
  | nil => exact ⟨[], rfl⟩
  | cons c rest ih =>
    cases hfind : findUniverse us c.universeName with
    | none => exact absurd hfind (h c (List.mem_cons_self c rest))
    | some u =>
      obtain ⟨ws, hws⟩ := ih (fun c2 hc2 => h c2 (List.mem_cons_of_mem c hc2))
      exact ⟨(c, u) :: ws, by simp [wireChannels, hfind, hws]⟩

/-- C9: if any configured channel names a universe that is not configured,
startup throws `'No matching universe'` before the loop is entered and the
program produces no event (no frame is ever produced, whatever the tick
budget); if every channel's universe name resolves, wiring succeeds and the
loop runs, producing the tick events. -/
theorem claim_C9_wiring (us : List UniverseConfig) (cs : List ChannelConfig) :
    ((∃ c ∈ cs, findUniverse us c.universeName = none) →
      wireChannels us cs = Except.error "No matching universe" ∧
      ∀ t, programRun us cs t = []) ∧
    ((∀ c ∈ cs, findUniverse us c.universeName ≠ none) →
      ∃ ws, wireChannels us cs = Except.ok ws ∧
        ∀ t, programRun us cs t = loopEvents cs.length us.length t) := by
  constructor
  · intro h
    have he := wireChannels_error_of us cs h
    exact ⟨he, fun t => by simp [programRun, he]⟩
  · intro h
    obtain ⟨ws, hws⟩ := wireChannels_ok_of us cs h
    exact ⟨ws, hws, fun t => by simp [programRun, hws]⟩

/-- Witness for C9: with the single universe `stage`, the channel list
`[cMissing]` (naming `nowhere`) makes startup fail and produce no event in
5 ticks' worth of run, while `[cGood]` wires and the loop produces its
events. -/
theorem claim_C9_witness :
    (wireChannels [uStage] [cMissing] = Except.error "No matching universe" ∧
      programRun [uStage] [cMissing] 5 = []) ∧
    ∃ ws, wireChannels [uStage] [cGood] = Except.ok ws ∧
      programRun [uStage] [cGood] 3 = loopEvents 1 1 3 := by
  constructor
  · have h := (claim_C9_wiring [uStage] [cMissing]).1
      ⟨cMissing, List.mem_singleton.mpr rfl, rfl⟩
    exact ⟨h.1, h.2 5⟩
  · obtain ⟨ws, hws, hrun⟩ := (claim_C9_wiring [uStage] [cGood]).2
      (by
        intro c hc
        rcases List.mem_singleton.mp hc with rfl
        intro hnone
        cases hnone)
    exact ⟨ws, hws, hrun 3⟩

/-- In one tick's event list, an update event can only sit among the first
`nCh` positions (the update block precedes the send block). -/
theorem tickEvents_update_lt (nCh nU i a : ℕ)
    (h : (tickEvents nCh nU)[i]? = some (Event.update a)) : i < nCh := by
  by_contra hge
  push_neg at hge
  have hlen : ((List.range nCh).map Event.update).length = nCh := by simp
  rw [tickEvents, List.getElem?_append_right (by rw [hlen]; exact hge)] at h
  rw [List.getElem?_map] at h
  cases hr : (List.range nU)[i - ((List.range nCh).map Event.update).length]? with
  | none => rw [hr] at h; cases h
  | some b => rw [hr] at h; simp at h

/-- In one tick's event list, a send event can only sit at position `nCh` or
later (after the whole update block). -/
theorem tickEvents_send_ge (nCh nU j b : ℕ)
    (h : (tickEvents nCh nU)[j]? = some (Event.send b)) : nCh ≤ j := by
  by_contra hlt
  push_neg at hlt
  have hlen : ((List.range nCh).map Event.update).length = nCh := by simp
  rw [tickEvents, List.getElem?_append, if_pos (by rw [hlen]; exact hlt)] at h
  rw [List.getElem?_map] at h
  cases hr : (List.range nCh)[j]? with
  | none => rw [hr] at h; cases h
  | some a => rw [hr] at h; simp at h

/-- Unfolding one more tick of the loop: its events are appended after all
events of the previous ticks. -/
theorem loopEvents_succ (nCh nU T : ℕ) :
    loopEvents nCh nU (T + 1) =
      loopEvents nCh nU T ++ (tickEvents nCh nU).map (fun e => (T + 1, e)) := by
  rw [loopEvents, loopEvents, List.range_succ, List.flatMap_append]
  simp

/-- Every event produced within the first `T` ticks carries a frame number
at most `T`. -/
theorem loopEvents_tag_le (nCh nU : ℕ) :
    ∀ (T : ℕ) (p : ℕ × Event), p ∈ loopEvents nCh nU T → p.1 ≤ T := by
  intro T
  induction T with
  | zero =>
    intro p h
    simp [loopEvents] at h
  | succ T ih =>
    intro p h
    rw [loopEvents_succ] at h
    rcases List.mem_append.mp h with h1 | h2
    · exact le_trans (ih p h1) (Nat.le_succ T)
    · rcases List.mem_map.mp h2 with ⟨e, _, rfl⟩
      exact le_refl _

/-- The frame numbers along the loop's event stream never decrease. -/
theorem loopEvents_pairwise (nCh nU T : ℕ) :
    (loopEvents nCh nU T).Pairwise (fun p q => p.1 ≤ q.1) := by
  induction T with
  | zero => simp [loopEvents]
  | succ T ih =>
    rw [loopEvents_succ, List.pairwise_append]
    refine ⟨ih, ?_, ?_⟩
    · rw [List.pairwise_map]
      exact List.pairwise_iff_getElem.mpr (fun i j hi hj hij => le_refl _)
    · intro p hp q hq
      rcases List.mem_map.mp hq with ⟨e, _, rfl⟩
      exact le_trans (loopEvents_tag_le nCh nU T p hp) (Nat.le_succ T)

/-- C7: within every tick, every channel update precedes every universe send
(the first `await` completes before line 172 runs); and across the loop's
event stream, every event of an earlier frame precedes every event of a
later frame — tick N+1 is never started until tick N's updates and sends
have completed, so no two ticks are ever in flight. -/
theorem claim_C7_ordering :
    (∀ (nCh nU i j a b : ℕ),
      (tickEvents nCh nU)[i]? = some (Event.update a) →
      (tickEvents nCh nU)[j]? = some (Event.send b) → i < j) ∧
    (∀ (nCh nU T i j : ℕ) (p q : ℕ × Event),
      (loopEvents nCh nU T)[i]? = some p →
      (loopEvents nCh nU T)[j]? = some q → p.1 < q.1 → i < j) := by
  constructor
  · intro nCh nU i j a b hi hj
    exact lt_of_lt_of_le (tickEvents_update_lt nCh nU i a hi)
      (tickEvents_send_ge nCh nU j b hj)
  · intro nCh nU T i j p q hi hj hpq
    rcases List.getElem?_eq_some_iff.mp hi with ⟨hilen, hip⟩
    rcases List.getElem?_eq_some_iff.mp hj with ⟨hjlen, hjq⟩
    by_contra hij
    push_neg at hij
    rcases Nat.eq_or_lt_of_le hij with heq | hji
    · subst heq
      have hpq2 : p = q := hip.symm.trans hjq
      rw [hpq2] at hpq
      exact lt_irrefl _ hpq
    · have hle := (List.pairwise_iff_getElem.mp
        (loopEvents_pairwise nCh nU T)) j i hjlen hilen hji
      rw [hip, hjq] at hle
      omega

/-- Witness for C7: two channels and one universe, two ticks.  In the tick
event list `[update 0, update 1, send 0]` the update at position 0 precedes
the send at position 2; in the two-tick stream the frame‑1 event at position
0 precedes the frame‑2 event at position 3. -/
theorem claim_C7_witness :
    (tickEvents 2 1)[0]? = some (Event.update 0) ∧
    (tickEvents 2 1)[2]? = some (Event.send 0) ∧
    (loopEvents 2 1 2)[0]? = some (1, Event.update 0) ∧
    (loopEvents 2 1 2)[3]? = some (2, Event.update 0) ∧
    0 < 2 ∧ (0 : ℕ) < 3 :=
  ⟨rfl, rfl, rfl, rfl,
    claim_C7_ordering.1 2 1 0 2 0 0 rfl rfl,
    claim_C7_ordering.2 2 1 2 0 3 (1, Event.update 0) (2, Event.update 0)
      rfl rfl (by omega)⟩

end Lighting
